import Mathlib

/-!
Shallow embedding of the task-queue engine (github.com/mnikita/task-queue):
the consumer reserve/ack loop (pkg/consumer), the worker pool dispatch and
shutdown paths (pkg/worker), the construction of the coordination channels,
and the wire decoding of reserved payloads.  Pure data and control flow are
translated from the Go source; concurrency is modelled by making each loop
iteration a function of its externally supplied inputs (the reserve result
and the multiplexed channel event) and recording the externally visible
effects (broker calls, handoffs, lifecycle signals, log entries) in an
explicit output structure.
-/

namespace TaskQueue

/-! ### Data model (pkg/common, modelled; see doc comments) -/

/-- Task as decoded from a reservation: broker-assigned id, handler-selecting
name, opaque payload bytes (bytes modelled as a list of naturals). -/
structure Task where
  id : Nat
  name : String
  payload : List Nat
deriving Repr, DecidableEq

/-- Modelled from the spec: the Task Process Event kind, one of Progress,
Success, Error, Heartbeat (the `common` package declaring the Go constants is
not under src/; the four kinds and their distinctness are per spec §3). -/
inductive EventId where
  | progress
  | success
  | error
  | heartbeat
deriving Repr, DecidableEq

/-- Task Process Event as consumed by the consumer loop: an event kind plus
the task it concerns (fields `EventId` and `Task` as used in
consumer.handleConsume). -/
structure TaskProcessEvent where
  eventId : EventId
  task : Task
deriving Repr, DecidableEq

/-! ### Logger error message constructors (src/pkg/log/logger.go) -/

/-- Message of log.MissingConsumerHandlerError. -/
def missingConsumerHandlerMsg : String := "ConsumerHandler not specified"

/-- Message of log.MissingTaskPayloadHandlerError. -/
def missingTaskPayloadHandlerMsg : String := "TaskPayloadHandler not specified"

/-- Message of log.RegisteredTaskHandlerError. -/
def registeredTaskHandlerMsg (taskName : String) : String :=
  "RegisteredTaskHandler(" ++ taskName ++ "): unknown task name"

/-- Message of log.EmptyReserveTaskPayloadError. -/
def emptyReserveTaskPayloadMsg (id : Nat) : String :=
  "Task(" ++ toString id ++ ") payload empty"

/-- Message of log.InvalidReserveTaskPayloadError. -/
def invalidReserveTaskPayloadMsg (id : Nat) (errMsg : String) : String :=
  "Invalid Reserved Task(" ++ toString id ++ ") JSON format: " ++ errMsg

/-- Message of log.TaskThreadError. -/
def taskThreadMsg (taskName : String) (errMsg : String) : String :=
  "Task(" ++ taskName ++ ") failed: " ++ errMsg

/-- Message of log.WorkerWaitTimeoutError (seconds already divided out). -/
def workerWaitTimeoutMsg (secs : Nat) : String :=
  "Timed out waiting for task threads to close after " ++ toString secs ++ " seconds"

/-- Message of consumer.ErrTimeout, the sentinel used to classify a reserve
failure as timeout-class by message comparison. -/
def errTimeoutMsg : String := "timeout"

/-! ### Consumer configuration (src/unnamed/part_002, consumer.Configuration) -/

/-- Consumer configuration; durations in seconds. -/
structure ConsumerConfiguration where
  waitForConsumerReserve : Nat
  heartbeat : Nat
  releasePriority : Nat
  releaseDelay : Nat
  buryPriority : Nat
deriving Repr, DecidableEq

/-- consumer.NewConfiguration: the default consumer configuration. -/
def newConsumerConfiguration : ConsumerConfiguration :=
  { waitForConsumerReserve := 5
    heartbeat := 5
    releasePriority := 1
    releaseDelay := 5
    buryPriority := 1 }

/-! ### Broker acknowledgment calls (consumer.Handler interface) -/

/-- Broker acknowledgment calls the consumer can issue against a reserved
job (the Reserve call itself is modelled separately as the iteration input). -/
inductive BrokerCall where
  | release (id : Nat) (pri : Nat) (delay : Nat)
  | delete (id : Nat)
  | bury (id : Nat) (pri : Nat)
  | touch (id : Nat)
deriving Repr, DecidableEq

/-- Job id an acknowledgment call concerns. -/
def BrokerCall.jobId : BrokerCall → Nat
  | .release id _ _ => id
  | .delete id => id
  | .bury id _ => id
  | .touch id => id

/-! ### Payload decoding and handlePayload (src/unnamed/part_002) -/

/-- Modelled from the spec: the task wire representation decodes to
`(Name, Payload)` only; the `Id` field is supplied out-of-band by the broker
reservation and is not carried in the payload (spec §6; the `common` package
defining the Go Task JSON shape is not under src/). -/
structure WireTask where
  name : String
  payload : List Nat
deriving Repr, DecidableEq

/-- Result of Consumer.handlePayload, with the handoff to the payload intake
recorded explicitly. -/
inductive PayloadOutcome where
  | emptyPayload (errMsg : String)
  | invalidPayload (errMsg : String)
  | handed (task : Task)
deriving Repr, DecidableEq

/-- Consumer.handlePayload: a nil body fails as EmptyPayload; a body the
decoder rejects fails as InvalidPayload; otherwise the decoded task, with its
`id` taken from the reservation, is handed to the payload intake.  The JSON
decoder is abstracted as `decode` (modelled from the spec: it can produce
only Name and Payload, never an id). -/
def handlePayload (decode : List Nat → Except String WireTask)
    (id : Nat) (body : Option (List Nat)) : PayloadOutcome :=
  match body with
  | none => .emptyPayload (emptyReserveTaskPayloadMsg id)
  | some b =>
    match decode b with
    | .error e => .invalidPayload (invalidReserveTaskPayloadMsg id e)
    | .ok w => .handed { id := id, name := w.name, payload := w.payload }

/-! ### The consume loop, one iteration (Consumer.handleConsume) -/

/-- Outcome of the broker Reserve call that heads each iteration. -/
inductive ReserveResult where
  | failure (errMsg : String)
  | ok (id : Nat) (body : Option (List Nat))
deriving Repr, DecidableEq

/-- Which arm of the iteration's select fires: the quit channel, the task
event channel, or the heartbeat timer. -/
inductive MultiplexInput where
  | quit
  | event (e : TaskProcessEvent)
  | heartbeatTimeout
deriving Repr, DecidableEq

/-- Externally visible effects of the reserve phase of one iteration. -/
structure ReservePhaseOut where
  reserveTimeoutSignal : Bool
  loggedErrors : List String
  handoffs : List Task
deriving Repr, DecidableEq

/-- Reserve phase of Consumer.handleConsume: a failing Reserve whose message
equals the timeout sentinel emits OnReserveTimeout, any other failure is
logged; a successful Reserve with non-zero id runs handlePayload, logging its
error if any; a zero id does nothing. -/
def reservePhase (decode : List Nat → Except String WireTask)
    (r : ReserveResult) : ReservePhaseOut :=
  match r with
  | .failure msg =>
    if msg = errTimeoutMsg then
      { reserveTimeoutSignal := true, loggedErrors := [], handoffs := [] }
    else
      { reserveTimeoutSignal := false, loggedErrors := [msg], handoffs := [] }
  | .ok id body =>
    if id ≠ 0 then
      match handlePayload decode id body with
      | .emptyPayload e =>
        { reserveTimeoutSignal := false, loggedErrors := [e], handoffs := [] }
      | .invalidPayload e =>
        { reserveTimeoutSignal := false, loggedErrors := [e], handoffs := [] }
      | .handed t =>
        { reserveTimeoutSignal := false, loggedErrors := [], handoffs := [t] }
    else
      { reserveTimeoutSignal := false, loggedErrors := [], handoffs := [] }

/-- Externally visible effects of the multiplex phase of one iteration. -/
structure MultiplexOut where
  brokerCalls : List BrokerCall
  heartbeatSignal : Bool
  terminates : Bool
deriving Repr, DecidableEq

/-- Multiplex phase of Consumer.handleConsume: quit acknowledges and
terminates the loop; an incoming task process event is switched on its kind
(Error buries at BuryPriority, Success deletes, Heartbeat touches, any other
kind — Progress — hits no case and takes no broker action); the heartbeat
timer emits OnHeartbeat. -/
def multiplex (cfg : ConsumerConfiguration) (m : MultiplexInput) : MultiplexOut :=
  match m with
  | .quit => { brokerCalls := [], heartbeatSignal := false, terminates := true }
  | .event e =>
    match e.eventId with
    | .error =>
      { brokerCalls := [.bury e.task.id cfg.buryPriority]
        heartbeatSignal := false, terminates := false }
    | .success =>
      { brokerCalls := [.delete e.task.id]
        heartbeatSignal := false, terminates := false }
    | .heartbeat =>
      { brokerCalls := [.touch e.task.id]
        heartbeatSignal := false, terminates := false }
    | .progress =>
      { brokerCalls := [], heartbeatSignal := false, terminates := false }
  | .heartbeatTimeout =>
    { brokerCalls := [], heartbeatSignal := true, terminates := false }

/-- Externally visible effects of one full iteration of the consume loop. -/
structure IterationOut where
  reserveTimeoutSignal : Bool
  loggedErrors : List String
  handoffs : List Task
  brokerCalls : List BrokerCall
  heartbeatSignal : Bool
  terminates : Bool
deriving Repr, DecidableEq

/-- One iteration of Consumer.handleConsume: the reserve phase followed by
the multiplex phase; the reserve phase issues no broker acknowledgment calls,
so the iteration's acknowledgment calls are exactly the multiplex phase's. -/
def handleConsumeIteration (decode : List Nat → Except String WireTask)
    (cfg : ConsumerConfiguration) (r : ReserveResult) (m : MultiplexInput) :
    IterationOut :=
  let rp := reservePhase decode r
  let mp := multiplex cfg m
  { reserveTimeoutSignal := rp.reserveTimeoutSignal
    loggedErrors := rp.loggedErrors
    handoffs := rp.handoffs
    brokerCalls := mp.brokerCalls
    heartbeatSignal := mp.heartbeatSignal
    terminates := mp.terminates }

/-! ### Consumer start (Consumer.StartConsumer) -/

/-- Synchronous result of Consumer.StartConsumer: the returned error, if
any, and whether the consume loop goroutine was spawned. -/
structure StartConsumerOut where
  err : Option String
  loopSpawned : Bool
deriving Repr, DecidableEq

/-- Consumer.StartConsumer: with no broker handler configured it returns
MissingConsumerHandlerError; otherwise with no task payload handler it
returns MissingTaskPayloadHandlerError; in either case no loop is spawned.
With both configured it spawns handleConsume in the background and returns
no error. -/
def startConsumer (hasHandler : Bool) (hasTaskPayloadHandler : Bool) :
    StartConsumerOut :=
  if hasHandler = false then
    { err := some missingConsumerHandlerMsg, loopSpawned := false }
  else if hasTaskPayloadHandler = false then
    { err := some missingTaskPayloadHandlerMsg, loopSpawned := false }
  else
    { err := none, loopSpawned := true }

/-! ### Worker pool (src/pkg/worker/worker.go) -/

/-- Worker configuration; durations in seconds. -/
structure WorkerConfiguration where
  concurrency : Nat
  waitToAcceptConsumerTask : Nat
  waitTaskThreadsToClose : Nat
  heartbeat : Nat
deriving Repr, DecidableEq

/-- worker.NewConfiguration: the default worker configuration; concurrency
defaults to host parallelism (util.GetSystemConcurrency), passed in here. -/
def newWorkerConfiguration (systemConcurrency : Nat) : WorkerConfiguration :=
  { concurrency := systemConcurrency
    heartbeat := 5
    waitToAcceptConsumerTask := 30
    waitTaskThreadsToClose := 30 }

/-- Buffer capacities of the channels a Worker allocates. -/
structure WorkerChannels where
  quitCap : Nat
  taskQueueQuitCap : Nat
  taskQueueCap : Nat
deriving Repr, DecidableEq

/-- worker.NewWorker: a nil configuration is replaced by the default; the
quit channel is unbuffered, the per-routine quit channel and the task
submission queue are buffered with capacity Concurrency.  Returns the
effective configuration together with the allocated channel capacities. -/
def newWorker (config : Option WorkerConfiguration) (systemConcurrency : Nat) :
    WorkerConfiguration × WorkerChannels :=
  let cfg := config.getD (newWorkerConfiguration systemConcurrency)
  (cfg, { quitCap := 0, taskQueueQuitCap := cfg.concurrency,
          taskQueueCap := cfg.concurrency })

/-- Buffer capacities of the channels a Consumer allocates. -/
structure ConsumerChannels where
  taskEventCap : Nat
  quitCap : Nat
deriving Repr, DecidableEq

/-- consumer.NewConsumer: a nil configuration is replaced by the default;
the task event channel is allocated with exactly one buffered slot and the
quit channel unbuffered.  Returns the effective configuration together with
the allocated channel capacities. -/
def newConsumer (config : Option ConsumerConfiguration) :
    ConsumerConfiguration × ConsumerChannels :=
  let cfg := config.getD newConsumerConfiguration
  (cfg, { taskEventCap := 1, quitCap := 0 })

/-! ### Worker dispatch (Worker.handleTask) -/

/-- Event a handler emits through its outcome sink while executing
(Worker.OnTaskHeartbeat / Worker.OnTaskResult, reached via the
TaskProcessEventHandler bound to the handler). -/
inductive MidEmit where
  | heartbeat
  | result
deriving Repr, DecidableEq

/-- Modelled from the spec: behaviour of one fresh handler instance for one
task — the Heartbeat/Progress emissions it makes while executing, and the
error its Handle call returns, if any (the `common` package defining the Go
TaskHandler interface is not under src/; per spec §3 a handler receives the
task and a sink, executes, and returns success or failure). -/
structure HandlerRun where
  emits : List MidEmit
  err : Option String
deriving Repr, DecidableEq

/-- Events observable from a worker routine dispatching one task: lifecycle
signals (pre/post-task) and outcome events (success/error/heartbeat/result),
as emitted by Worker.handleTask through the Worker's On* methods. -/
inductive WorkerEvent where
  | preTask (t : Task) (threadId : Nat)
  | postTask (t : Task) (threadId : Nat)
  | outTaskSuccess (t : Task)
  | outTaskError (t : Task) (errMsg : String)
  | outTaskHeartbeat (t : Task)
  | outTaskResult (t : Task)
deriving Repr, DecidableEq

/-- Outcome event a handler's mid-execution emission turns into. -/
def MidEmit.toEvent (t : Task) : MidEmit → WorkerEvent
  | .heartbeat => .outTaskHeartbeat t
  | .result => .outTaskResult t

/-- Worker.handleTask: resolve the task's handler through the registry
(common.GetRegisteredTaskHandler, modelled from the spec as a name-indexed
lookup returning the fresh handler's behaviour, failing on an unregistered
name with RegisteredTaskHandlerError); on resolution failure emit one Error
outcome event wrapping the failure (common.NewTaskThreadError, whose message
is log.TaskThreadError's); otherwise emit OnPreTask, run the handler, and on
handler failure emit one Error outcome event, on handler success emit
OnPostTask then one Success outcome event. -/
def handleTask (registry : String → Option HandlerRun) (threadId : Nat)
    (t : Task) : List WorkerEvent :=
  match registry t.name with
  | none =>
    [.outTaskError t (taskThreadMsg t.name (registeredTaskHandlerMsg t.name))]
  | some run =>
    .preTask t threadId ::
      (run.emits.map (MidEmit.toEvent t) ++
        match run.err with
        | some msg => [.outTaskError t (taskThreadMsg t.name msg)]
        | none => [.postTask t threadId, .outTaskSuccess t])

/-- Terminal outcome events are exactly Success and Error. -/
def isTerminalEvent : WorkerEvent → Bool
  | .outTaskSuccess _ => true
  | .outTaskError _ _ => true
  | _ => false

/-! ### Connector outcome relay (modelled; see doc comment) -/

/-- Modelled from the spec: the Connector's outcome relay — on each
Progress/Success/Error/Heartbeat notification from the worker it constructs
a Task Process Event for the task and writes it to the consumer's outcome
event channel; pure lifecycle signals (pre/post-task) are not relayed (the
`connector` package is not under src/; spec §4.4). -/
def relayEvent : WorkerEvent → Option TaskProcessEvent
  | .outTaskSuccess t => some { eventId := .success, task := t }
  | .outTaskError t _ => some { eventId := .error, task := t }
  | .outTaskHeartbeat t => some { eventId := .heartbeat, task := t }
  | .outTaskResult t => some { eventId := .progress, task := t }
  | .preTask _ _ => none
  | .postTask _ _ => none

/-- Broker acknowledgment calls the consumer issues when it drains, one per
iteration, the relayed outcome events of a worker event sequence. -/
def ackCalls (cfg : ConsumerConfiguration) (events : List WorkerEvent) :
    List BrokerCall :=
  (events.filterMap relayEvent).flatMap fun e => (multiplex cfg (.event e)).brokerCalls

/-! ### Worker shutdown (util.WaitTimeout, Worker.stopTaskThreads, Worker.StopWorker) -/

/-- util.WaitTimeout: waits for the wait group up to the timeout; returns
nil when the routines drained, WorkerWaitTimeoutError when the timeout
elapsed first.  Whether the routines drain in time is the external input
`drained`. -/
def waitTimeout (drained : Bool) (timeoutSecs : Nat) : Option String :=
  if drained then none else some (workerWaitTimeoutMsg timeoutSecs)

/-- Effects of Worker.stopTaskThreads. -/
structure StopThreadsOut where
  quitSignalsSent : Nat
  loggedErrors : List String
deriving Repr, DecidableEq

/-- Worker.stopTaskThreads: sends one per-routine quit signal per
concurrency slot, then waits via util.WaitTimeout; a timeout error is
logged and not propagated — the function has no failure outcome. -/
def stopTaskThreads (concurrency : Nat) (drained : Bool) (timeoutSecs : Nat) :
    StopThreadsOut :=
  { quitSignalsSent := concurrency
    loggedErrors :=
      match waitTimeout drained timeoutSecs with
      | some e => [e]
      | none => [] }

/-- Effects of the StopWorker handshake: StopWorker signals the supervisor,
the supervisor runs stopTaskThreads, acknowledges back, and emits
OnEndWorker; StopWorker then returns. -/
structure StopWorkerOut where
  loggedErrors : List String
  err : Option String
  endWorkerSignal : Bool
  reportedStopped : Bool
deriving Repr, DecidableEq

/-- Worker.StopWorker together with the supervisor goroutine spawned by
StartWorker: the quit handshake completes and OnEndWorker is emitted
unconditionally; stopTaskThreads' logged timeout error is never returned
(StopWorker returns no value), so the pool reports stopped regardless of
whether the routines drained. -/
def stopWorker (concurrency : Nat) (drained : Bool) (timeoutSecs : Nat) :
    StopWorkerOut :=
  let st := stopTaskThreads concurrency drained timeoutSecs
  { loggedErrors := st.loggedErrors
    err := none
    endWorkerSignal := true
    reportedStopped := true }

/-! ### Worker event emission methods (Worker.On*) -/

/-- Calls that reach a configured sink (lifecycle EventHandler or outcome
TaskProcessEventHandler) from the Worker's emission methods. -/
inductive SinkCall where
  | startWorker
  | endWorker
  | preTask (t : Task)
  | postTask (t : Task)
  | threadHeartbeat (threadId : Nat)
  | taskResult (t : Task)
  | taskSuccess (t : Task)
  | taskHeartbeat (t : Task)
  | taskError (t : Task) (errMsg : String)
deriving Repr, DecidableEq

/-- Effects of one Worker emission method: what it logs, which sink calls it
makes, and the error it raises (none — the methods return nothing). -/
structure EmitOut where
  logged : List String
  sinkCalls : List SinkCall
  err : Option String
deriving Repr, DecidableEq

/-- Worker.OnStartWorker: logs, then invokes the lifecycle sink only when
one is configured (util.IsNil guard). -/
def onStartWorker (eventHandler : Option Unit) : EmitOut :=
  { logged := ["Worker started"]
    sinkCalls := match eventHandler with
                 | some _ => [.startWorker]
                 | none => []
    err := none }

/-- Worker.OnEndWorker: logs, then invokes the lifecycle sink only when one
is configured. -/
def onEndWorker (eventHandler : Option Unit) : EmitOut :=
  { logged := ["Worker ended"]
    sinkCalls := match eventHandler with
                 | some _ => [.endWorker]
                 | none => []
    err := none }

/-- Worker.OnPreTask: logs, then invokes the lifecycle sink only when one is
configured. -/
def onPreTask (eventHandler : Option Unit) (t : Task) (threadId : Nat) : EmitOut :=
  { logged := ["Task PreHandler(" ++ t.name ++ "), thread(" ++ toString threadId ++ ")"]
    sinkCalls := match eventHandler with
                 | some _ => [.preTask t]
                 | none => []
    err := none }

/-- Worker.OnPostTask: logs, then invokes the lifecycle sink only when one
is configured. -/
def onPostTask (eventHandler : Option Unit) (t : Task) (threadId : Nat) : EmitOut :=
  { logged := ["Task PostHandler(" ++ t.name ++ "), thread(" ++ toString threadId ++ ")"]
    sinkCalls := match eventHandler with
                 | some _ => [.postTask t]
                 | none => []
    err := none }

/-- Worker.OnThreadHeartbeat: logs, then invokes the lifecycle sink only
when one is configured. -/
def onThreadHeartbeat (eventHandler : Option Unit) (threadId : Nat)
    (heartbeatSecs : Nat) : EmitOut :=
  { logged := ["Task thread (" ++ toString threadId ++ ") heartbeat after "
               ++ toString heartbeatSecs ++ " seconds"]
    sinkCalls := match eventHandler with
                 | some _ => [.threadHeartbeat threadId]
                 | none => []
    err := none }

/-- Worker.OnTaskResult: logs the task name and the formatted result
arguments, then invokes the outcome sink only when one is configured. -/
def onTaskResult (taskEventHandler : Option Unit) (t : Task) (argsText : String) :
    EmitOut :=
  { logged := ["Task (" ++ t.name ++ ") result: (" ++ argsText ++ ")"]
    sinkCalls := match taskEventHandler with
                 | some _ => [.taskResult t]
                 | none => []
    err := none }

/-- Worker.OnTaskSuccess: logs, then invokes the outcome sink only when one
is configured; with no outcome sink the Success outcome goes nowhere and no
error is raised. -/
def onTaskSuccess (taskEventHandler : Option Unit) (t : Task) : EmitOut :=
  { logged := ["Task success received: (" ++ t.name ++ ")"]
    sinkCalls := match taskEventHandler with
                 | some _ => [.taskSuccess t]
                 | none => []
    err := none }

/-- Worker.OnTaskHeartbeat: logs, then invokes the outcome sink only when
one is configured. -/
def onTaskHeartbeat (taskEventHandler : Option Unit) (t : Task) : EmitOut :=
  { logged := ["Task heartbeat received: (" ++ t.name ++ ")"]
    sinkCalls := match taskEventHandler with
                 | some _ => [.taskHeartbeat t]
                 | none => []
    err := none }

/-- Worker.OnTaskError: logs the error, then invokes the outcome sink only
when one is configured; with no outcome sink the Error outcome goes nowhere
and no error is raised. -/
def onTaskError (taskEventHandler : Option Unit) (t : Task) (errMsg : String) :
    EmitOut :=
  { logged := [errMsg]
    sinkCalls := match taskEventHandler with
                 | some _ => [.taskError t errMsg]
                 | none => []
    err := none }

/-! ### Theorems -/

/-- C1: for every outcome event received by the consume loop's multiplex
step, the broker action taken in that iteration is exactly: Error buries the
task's id at BuryPriority, Success deletes it, Heartbeat touches it, and
Progress causes no broker action at all — and the reserve phase of the
iteration contributes no acknowledgment call. -/
theorem consume_multiplex_event_broker_action
    (decode : List Nat → Except String WireTask) (cfg : ConsumerConfiguration)
    (r : ReserveResult) (e : TaskProcessEvent) :
    (handleConsumeIteration decode cfg r (.event e)).brokerCalls =
      match e.eventId with
      | .error => [BrokerCall.bury e.task.id cfg.buryPriority]
      | .success => [BrokerCall.delete e.task.id]
      | .heartbeat => [BrokerCall.touch e.task.id]
      | .progress => [] := by
  cases h : e.eventId <;>
    simp [handleConsumeIteration, multiplex, h]

/-- C3: whenever handlePayload hands a decoded task to the payload intake,
that task's id equals the broker-assigned reservation id, for every decoder
and every payload body: the wire payload carries only Name and Payload and
can never determine the decoded task's id. -/
theorem handlePayload_handed_id_eq_reservation_id
    (decode : List Nat → Except String WireTask) (id : Nat)
    (body : Option (List Nat)) (t : Task)
    (h : handlePayload decode id body = .handed t) : t.id = id := by
  cases body with
  | none => simp [handlePayload] at h
  | some b =>
    cases hd : decode b with
    | error e => simp [handlePayload, hd] at h
    | ok w =>
      simp [handlePayload, hd] at h
      subst h
      rfl

/-- Witness for C3 at a concrete decoder, reservation id and body. -/
theorem handlePayload_handed_id_eq_reservation_id_witness :
    handlePayload (fun _ => .ok { name := "echo", payload := [] }) 42 (some [123]) =
      .handed { id := 42, name := "echo", payload := [] } ∧
    Task.id { id := 42, name := "echo", payload := [] } = 42 :=
  ⟨rfl, handlePayload_handed_id_eq_reservation_id
    (fun _ => .ok { name := "echo", payload := [] }) 42 (some [123])
    { id := 42, name := "echo", payload := [] } rfl⟩

/-- C5: a reserved job with non-zero id and nil body fails in handlePayload
with the EmptyPayload error; in that iteration nothing is handed to the
pool, and no broker acknowledgment call concerning that job's id is issued,
provided the simultaneously multiplexed event (if any) is not about a task
with that id. -/
theorem empty_body_no_handoff_no_ack
    (decode : List Nat → Except String WireTask) (cfg : ConsumerConfiguration)
    (id : Nat) (m : MultiplexInput)
    (hid : id ≠ 0)
    (hm : ∀ e : TaskProcessEvent, m = .event e → e.task.id ≠ id) :
    handlePayload decode id none = .emptyPayload (emptyReserveTaskPayloadMsg id) ∧
    (handleConsumeIteration decode cfg (.ok id none) m).handoffs = [] ∧
    (handleConsumeIteration decode cfg (.ok id none) m).loggedErrors =
      [emptyReserveTaskPayloadMsg id] ∧
    ∀ c ∈ (handleConsumeIteration decode cfg (.ok id none) m).brokerCalls,
      c.jobId ≠ id := by
  refine ⟨rfl, ?_, ?_, ?_⟩
  · simp [handleConsumeIteration, reservePhase, handlePayload, hid]
  · simp [handleConsumeIteration, reservePhase, handlePayload, hid]
  · intro c hc
    cases m with
    | quit => simp [handleConsumeIteration, multiplex] at hc
    | heartbeatTimeout => simp [handleConsumeIteration, multiplex] at hc
    | event e =>
      have he := hm e rfl
      cases hev : e.eventId <;>
        simp [handleConsumeIteration, multiplex, hev] at hc <;>
        simp [hc, BrokerCall.jobId, he]

/-- Witness for C5 at a concrete id and the heartbeat-timer multiplex arm. -/
theorem empty_body_no_handoff_no_ack_witness :
    (7 : Nat) ≠ 0 ∧
    (handleConsumeIteration (fun _ => .error "unused") newConsumerConfiguration
        (.ok 7 none) .heartbeatTimeout).handoffs = [] := by
  have h := empty_body_no_handoff_no_ack (fun _ => .error "unused")
    newConsumerConfiguration 7 .heartbeatTimeout (by decide)
    (by intro e he; cases he)
  exact ⟨by decide, h.2.1⟩

/-- C6: a failing Reserve whose error message equals the timeout sentinel
triggers the OnReserveTimeout lifecycle signal and is not logged; any other
failure is only logged; in both cases the iteration terminates the loop only
when the quit signal was multiplexed, never because of the reserve
failure. -/
theorem reserve_failure_classified_and_loop_continues
    (decode : List Nat → Except String WireTask) (cfg : ConsumerConfiguration)
    (msg : String) (m : MultiplexInput) :
    ((handleConsumeIteration decode cfg (.failure msg) m).reserveTimeoutSignal =
        (msg = errTimeoutMsg : Bool)) ∧
    (handleConsumeIteration decode cfg (.failure msg) m).loggedErrors =
      (if msg = errTimeoutMsg then [] else [msg]) ∧
    ((handleConsumeIteration decode cfg (.failure msg) m).terminates = true ↔
      m = .quit) := by
  refine ⟨?_, ?_, ?_⟩
  · by_cases h : msg = errTimeoutMsg <;>
      simp [handleConsumeIteration, reservePhase, h]
  · by_cases h : msg = errTimeoutMsg <;>
      simp [handleConsumeIteration, reservePhase, h]
  · cases m with
    | quit => simp [handleConsumeIteration, multiplex]
    | heartbeatTimeout => simp [handleConsumeIteration, multiplex]
    | event e =>
      cases hev : e.eventId <;>
        simp [handleConsumeIteration, multiplex, hev]

/-- C7: StartConsumer returns the MissingConsumerHandler error when no
broker handler is configured, the MissingTaskPayloadHandler error when a
broker handler is configured but no payload intake handler is, in both cases
without spawning the consume loop; with both configured it spawns the loop
and returns no error. -/
theorem startConsumer_requires_handlers
    (hasTaskPayloadHandler : Bool) :
    startConsumer false hasTaskPayloadHandler =
      { err := some missingConsumerHandlerMsg, loopSpawned := false } ∧
    startConsumer true false =
      { err := some missingTaskPayloadHandlerMsg, loopSpawned := false } ∧
    startConsumer true true = { err := none, loopSpawned := true } := by
  refine ⟨?_, ?_, ?_⟩ <;> rfl

/-- C2: every dispatch of a task through Worker.handleTask emits exactly one
terminal outcome event (Success or Error) — never both, never neither — on
every path (resolution failure, handler failure, handler success); the
terminal event is the last event emitted, and a handler's mid-execution
Heartbeat/Progress emissions are never terminal. -/
theorem handleTask_exactly_one_terminal
    (registry : String → Option HandlerRun) (threadId : Nat) (t : Task) :
    (handleTask registry threadId t).countP isTerminalEvent = 1 ∧
    (∃ last, (handleTask registry threadId t).getLast? = some last ∧
      isTerminalEvent last = true) ∧
    (∀ m : MidEmit, isTerminalEvent (m.toEvent t) = false) := by
  have hmid : ∀ run : HandlerRun,
      (run.emits.map (MidEmit.toEvent t)).countP isTerminalEvent = 0 := by
    intro run
    rw [List.countP_eq_zero]
    intro ev hev
    rw [List.mem_map] at hev
    obtain ⟨m, _, rfl⟩ := hev
    cases m <;> simp [MidEmit.toEvent, isTerminalEvent]
  refine ⟨?_, ?_, ?_⟩
  · cases hr : registry t.name with
    | none => simp [handleTask, hr, isTerminalEvent]
    | some run =>
      cases he : run.err with
      | some msg =>
        simp [handleTask, hr, he, List.countP_cons, List.countP_append,
          isTerminalEvent, hmid run]
      | none =>
        simp [handleTask, hr, he, List.countP_cons, List.countP_append,
          isTerminalEvent, hmid run]
  · cases hr : registry t.name with
    | none =>
      exact ⟨.outTaskError t (taskThreadMsg t.name (registeredTaskHandlerMsg t.name)),
        by simp [handleTask, hr], by simp [isTerminalEvent]⟩
    | some run =>
      cases he : run.err with
      | some msg =>
        refine ⟨.outTaskError t (taskThreadMsg t.name msg), ?_, by
          simp [isTerminalEvent]⟩
        simp only [handleTask, hr, he]
        rw [show WorkerEvent.preTask t threadId ::
              (run.emits.map (MidEmit.toEvent t) ++
                [WorkerEvent.outTaskError t (taskThreadMsg t.name msg)]) =
            (WorkerEvent.preTask t threadId :: run.emits.map (MidEmit.toEvent t)) ++
              [WorkerEvent.outTaskError t (taskThreadMsg t.name msg)] from rfl]
        exact List.getLast?_concat _
      | none =>
        refine ⟨.outTaskSuccess t, ?_, by simp [isTerminalEvent]⟩
        simp only [handleTask, hr, he]
        rw [show WorkerEvent.preTask t threadId ::
              (run.emits.map (MidEmit.toEvent t) ++
                [WorkerEvent.postTask t threadId, WorkerEvent.outTaskSuccess t]) =
            ((WorkerEvent.preTask t threadId :: run.emits.map (MidEmit.toEvent t)) ++
              [WorkerEvent.postTask t threadId]) ++ [WorkerEvent.outTaskSuccess t]
            from by simp]
        exact List.getLast?_concat _
  · intro m
    cases m <;> simp [MidEmit.toEvent, isTerminalEvent]

/-- C4: dispatching a task whose name has no registered handler emits
exactly one Error outcome event wrapping the resolution failure and nothing
else — no pre-task signal, no handler execution — and draining that event
through the Connector relay and the consumer's multiplex yields exactly one
Bury of the job's id at BuryPriority. -/
theorem unregistered_task_buried_no_execution
    (registry : String → Option HandlerRun) (threadId : Nat) (t : Task)
    (cfg : ConsumerConfiguration)
    (h : registry t.name = none) :
    handleTask registry threadId t =
      [.outTaskError t (taskThreadMsg t.name (registeredTaskHandlerMsg t.name))] ∧
    ackCalls cfg (handleTask registry threadId t) =
      [.bury t.id cfg.buryPriority] := by
  constructor
  · simp [handleTask, h]
  · simp [handleTask, h, ackCalls, relayEvent, multiplex]

/-- Witness for C4 at a concrete empty registry, task and the default
consumer configuration. -/
theorem unregistered_task_buried_no_execution_witness :
    (fun _ : String => (none : Option HandlerRun)) "missing" = none ∧
    ackCalls newConsumerConfiguration
        (handleTask (fun _ => none) 1 { id := 9, name := "missing", payload := [] }) =
      [.bury 9 1] :=
  ⟨rfl, (unregistered_task_buried_no_execution (fun _ => none) 1
    { id := 9, name := "missing", payload := [] } newConsumerConfiguration rfl).2⟩

/-- C8: a drain timeout during pool shutdown is only logged, never returned:
stopTaskThreads sends each routine its stop signal and completes with no
failure outcome, and the StopWorker handshake finishes, emits OnEndWorker
and reports the pool stopped whether or not the routines drained in time. -/
theorem stopWorker_timeout_logged_not_fatal
    (concurrency : Nat) (drained : Bool) (timeoutSecs : Nat) :
    (stopWorker concurrency drained timeoutSecs).err = none ∧
    (stopWorker concurrency drained timeoutSecs).reportedStopped = true ∧
    (stopWorker concurrency drained timeoutSecs).endWorkerSignal = true ∧
    (stopWorker concurrency drained timeoutSecs).loggedErrors =
      (if drained then [] else [workerWaitTimeoutMsg timeoutSecs]) ∧
    (stopTaskThreads concurrency drained timeoutSecs).quitSignalsSent =
      concurrency := by
  cases drained <;>
    simp [stopWorker, stopTaskThreads, waitTimeout]

/-- C9: the two coordination channels are bounded exactly as specified at
construction: for every configuration (including the nil-configuration
default), NewWorker allocates the task submission queue with buffer capacity
equal to the effective Concurrency, and NewConsumer allocates the outcome
event channel with buffer capacity exactly one. -/
theorem coordination_channels_bounded
    (config : Option WorkerConfiguration) (systemConcurrency : Nat)
    (ccfg : Option ConsumerConfiguration) :
    (newWorker config systemConcurrency).2.taskQueueCap =
      (newWorker config systemConcurrency).1.concurrency ∧
    (newConsumer ccfg).2.taskEventCap = 1 := by
  exact ⟨rfl, rfl⟩

/-- C10: every event-emission method of the Worker guards its sink against
nil: with no lifecycle or outcome sink configured each emission produces its
log entry, makes no sink call and raises no error — in particular a task's
Success or Error outcome is silently dropped, not raised, when no outcome
sink is set. -/
theorem emission_with_nil_sink_logs_only
    (t : Task) (threadId : Nat) (heartbeatSecs : Nat) (errMsg : String)
    (argsText : String) :
    ((onStartWorker none).sinkCalls = [] ∧ (onStartWorker none).err = none ∧
      (onStartWorker none).logged ≠ []) ∧
    ((onEndWorker none).sinkCalls = [] ∧ (onEndWorker none).err = none ∧
      (onEndWorker none).logged ≠ []) ∧
    ((onPreTask none t threadId).sinkCalls = [] ∧
      (onPreTask none t threadId).err = none ∧
      (onPreTask none t threadId).logged ≠ []) ∧
    ((onPostTask none t threadId).sinkCalls = [] ∧
      (onPostTask none t threadId).err = none ∧
      (onPostTask none t threadId).logged ≠ []) ∧
    ((onThreadHeartbeat none threadId heartbeatSecs).sinkCalls = [] ∧
      (onThreadHeartbeat none threadId heartbeatSecs).err = none ∧
      (onThreadHeartbeat none threadId heartbeatSecs).logged ≠ []) ∧
    ((onTaskResult none t argsText).sinkCalls = [] ∧
      (onTaskResult none t argsText).err = none ∧
      (onTaskResult none t argsText).logged ≠ []) ∧
    ((onTaskSuccess none t).sinkCalls = [] ∧ (onTaskSuccess none t).err = none ∧
      (onTaskSuccess none t).logged ≠ []) ∧
    ((onTaskHeartbeat none t).sinkCalls = [] ∧
      (onTaskHeartbeat none t).err = none ∧
      (onTaskHeartbeat none t).logged ≠ []) ∧
    ((onTaskError none t errMsg).sinkCalls = [] ∧
      (onTaskError none t errMsg).err = none ∧
      (onTaskError none t errMsg).logged = [errMsg]) := by
  simp [onStartWorker, onEndWorker, onPreTask, onPostTask, onThreadHeartbeat,
    onTaskResult, onTaskSuccess, onTaskHeartbeat, onTaskError]

end TaskQueue
